import Mathlib

/-!
Verification of the bot-configuration subsystem: a shallow embedding of the
publish-status bitmask (`consts/publish_status.py`), the in-process LRU cache
(`api/middleware/auth_middleware.py`), the cache-aside configuration store
(`repository/bot_config_client.py`), the publish state machine
(`service/publish_service.py`) and the two-tier authorization check
(`service/auth_service.py` over `repository/auth_client.py`).

Conventions of the embedding:
- Redis is modelled per bot: the single key `spark_bot:bot_config:{bot_id}`
  is one optional cache slot; an entry carries its value and its remaining
  TTL (`-1` meaning no expiry, as reported by Redis `TTL`).
- JSON (de)serialisation of a configuration is treated as the identity: the
  cache slot stores the configuration value itself.
- MySQL is a list of rows; `query(...).first()` is `List.find?`; a durable
  store access counter is threaded through every operation.
- `async` sequencing is explicit state passing; exceptions are `Except`.
-/

/-! ## consts/publish_status.py -/

/-- Platform identifiers using bitmask values (`Platform(IntEnum)`). -/
inductive Platform where
  | XINGCHEN
  | KAIFANG
  | AIUI
deriving DecidableEq, Repr

/-- The bitmask value of each platform (1, 4, 16). -/
def Platform.toNat : Platform → Nat
  | .XINGCHEN => 1
  | .KAIFANG => 4
  | .AIUI => 16

/-- `PLATFORM_NAMES` mapping for user-facing messages. -/
def PLATFORM_NAMES : Platform → String
  | .XINGCHEN => "星辰平台"
  | .KAIFANG => "开放平台"
  | .AIUI => "AIUI平台"

/-- `is_published`: `(publish_status & platform) > 0`. -/
def is_published (publish_status : Nat) (platform : Platform) : Bool :=
  decide (0 < publish_status &&& platform.toNat)

/-- `add_platform`: `publish_status | platform`. -/
def add_platform (publish_status : Nat) (platform : Platform) : Nat :=
  publish_status ||| platform.toNat

/-- `remove_platform`: `publish_status & ~platform`.  Python integers are
unbounded; on the nonnegative statuses stored in the table, `s & ~p` is the
bitwise difference `Nat.ldiff s p`. -/
def remove_platform (publish_status : Nat) (platform : Platform) : Nat :=
  Nat.ldiff publish_status platform.toNat

/-! ## api/middleware/auth_middleware.py — LRUCache

The backing `OrderedDict` is a list of key-value pairs in recency order:
the head is the least recently used entry, the last element the most
recently used.  Keys in a reachable cache are distinct. -/

structure LRUCache where
  cache : List (String × String)
  maxSize : Nat
deriving DecidableEq, Repr

/-- `LRUCache.__init__`: empty ordered dict with the given bound. -/
def LRUCache.init (max_size : Nat) : LRUCache :=
  { cache := [], maxSize := max_size }

/-- Dictionary lookup `self._cache[key]` / `key in self._cache`. -/
def lruFind (l : List (String × String)) (k : String) : Option String :=
  (l.find? (fun p => p.1 == k)).map Prod.snd

/-- `OrderedDict.move_to_end(key)` for a dict with distinct keys. -/
def lruMoveToEnd (l : List (String × String)) (k : String) : List (String × String) :=
  match lruFind l k with
  | none => l
  | some v => l.filter (fun p => p.1 != k) ++ [(k, v)]

/-- `LRUCache.get`: return the value and move the key to most recently used;
`None` when absent. -/
def LRUCache.get (c : LRUCache) (k : String) : Option String × LRUCache :=
  match lruFind c.cache k with
  | none => (none, c)
  | some v => (some v, { c with cache := lruMoveToEnd c.cache k })

/-- `LRUCache.set`: update-and-promote an existing key; otherwise append the
new key and, if the bound is now exceeded, drop the least recently used
entry (`popitem(last=False)`). -/
def LRUCache.set (c : LRUCache) (k v : String) : LRUCache :=
  if (lruFind c.cache k).isSome then
    { c with cache := c.cache.filter (fun p => p.1 != k) ++ [(k, v)] }
  else
    let l := c.cache ++ [(k, v)]
    if c.maxSize < l.length then { c with cache := l.tail }
    else { c with cache := l }

/-- `LRUCache.__len__`. -/
def LRUCache.size (c : LRUCache) : Nat :=
  c.cache.length

/-- A client-visible operation on the LRU cache. -/
inductive LRUOp where
  | get (k : String)
  | set (k v : String)
deriving DecidableEq, Repr

/-- Apply one operation (the value returned by `get` is discarded). -/
def LRUCache.apply (c : LRUCache) : LRUOp → LRUCache
  | .get k => (c.get k).2
  | .set k v => c.set k v

/-- Apply a sequence of operations in order. -/
def LRUCache.applyAll (c : LRUCache) (ops : List LRUOp) : LRUCache :=
  ops.foldl LRUCache.apply c

/-! ## repository/bot_config_client.py — BotConfigClient

State: the bot's single Redis slot, the MySQL table, and a durable-store
access counter (incremented at every MySQL query). -/

/-- The typed exception `AgentExc(code, message, on=...)`. -/
structure AgentExc where
  code : Nat
  message : String
  onTag : String
deriving DecidableEq, Repr

/-- The API-level configuration value (`BotConfig`); the structured
sub-configs, tool/server/flow id lists are abstracted into one serialized
`payload` field, which is all the cache/store logic ever moves around. -/
structure BotConfig where
  app_id : String
  bot_id : String
  payload : String
deriving DecidableEq, Repr

/-- A row of the durable table (`TbBotConfig`). -/
structure TbBotConfig where
  app_id : String
  bot_id : String
  version : String
  payload : String
  publish_status : Option Nat
  publish_data : Option String
  is_deleted : Bool
deriving DecidableEq, Repr

/-- `build_bot_config` on a database record. -/
def build_bot_config (r : TbBotConfig) : BotConfig :=
  { app_id := r.app_id, bot_id := r.bot_id, payload := r.payload }

/-- One Redis entry for the bot's key: the cached configuration and its
remaining TTL as reported by Redis `TTL` (`-1` = no expiry, positive =
seconds remaining). -/
structure CacheEntry where
  value : BotConfig
  ttl : Int
deriving DecidableEq, Repr

structure StoreState where
  cache : Option CacheEntry
  table : List TbBotConfig
  mysqlQueries : Nat
deriving DecidableEq, Repr

structure BotConfigClient where
  app_id : String
  bot_id : String
  allow_cross_app_access : Bool
deriving DecidableEq, Repr

/-- `redis_key`: keyed by `bot_id` only. -/
def redis_key (cl : BotConfigClient) : String :=
  "spark_bot:bot_config:" ++ cl.bot_id

/-- `redis_client.get_ttl(key)`: `None` when the key is absent. -/
def get_ttl (s : StoreState) : Option Int :=
  s.cache.map (fun e => e.ttl)

/-- `set_to_redis(value, ex)`: `ex=None` defaults to the configured
`REDIS_EXPIRE` (`cfgExpire`), then the key is set with that expiry. -/
def set_to_redis (cfgExpire : Int) (value : BotConfig) (ex : Option Int)
    (s : StoreState) : StoreState :=
  let e := ex.getD cfgExpire
  { s with cache := some { value := value, ttl := e } }

/-- `refresh_redis_ttl(ex, value)`: re-set the key when its TTL is positive. -/
def refresh_redis_ttl (cfgExpire : Int) (ex : Int) (value : BotConfig)
    (s : StoreState) : StoreState :=
  match get_ttl s with
  | some t => if 0 < t then set_to_redis cfgExpire value (some ex) s else s
  | none => s

/-- `pull_from_redis`: on a hit, keys with a positive TTL are refreshed to
the configured expiry before the cached value is returned. -/
def pull_from_redis (cfgExpire : Int) (s : StoreState) :
    Option BotConfig × StoreState :=
  match s.cache with
  | none => (none, s)
  | some entry =>
      (some entry.value, refresh_redis_ttl cfgExpire cfgExpire entry.value s)

/-- The MySQL filter of `pull_from_mysql`: by `bot_id` only in cross-app
mode, otherwise by `app_id` and `bot_id`; always by `version` and
not-deleted. -/
def mysqlFilter (cl : BotConfigClient) (version : String) (r : TbBotConfig) : Bool :=
  if cl.allow_cross_app_access then
    r.bot_id == cl.bot_id && r.version == version && !r.is_deleted
  else
    r.app_id == cl.app_id && r.bot_id == cl.bot_id && r.version == version
      && !r.is_deleted

/-- `pull_from_mysql`: query the table; only the main version (`"-1"`) is
written back to the cache with the configured expiry. -/
def pull_from_mysql (cl : BotConfigClient) (cfgExpire : Int) (version : String)
    (s : StoreState) : Option BotConfig × StoreState :=
  let s0 : StoreState := { s with mysqlQueries := s.mysqlQueries + 1 }
  match s0.table.find? (mysqlFilter cl version) with
  | none => (none, s0)
  | some record =>
      let bot_config := build_bot_config record
      if version == "-1" then
        (some bot_config, set_to_redis cfgExpire bot_config (some cfgExpire) s0)
      else
        (some bot_config, s0)

/-- `pull`: cache-aside read for the main version, direct MySQL for
snapshots; NotFound (40001) when neither path yields a record, and the
identical code and message when ownership fails after retrieval. -/
def pull (cl : BotConfigClient) (cfgExpire : Int) (version : String)
    (s : StoreState) : Except AgentExc BotConfig × StoreState :=
  let pulled : Option BotConfig × StoreState :=
    if version == "-1" then
      match pull_from_redis cfgExpire s with
      | (some v, s') => (some v, s')
      | (none, s') => pull_from_mysql cl cfgExpire version s'
    else
      pull_from_mysql cl cfgExpire version s
  match pulled with
  | (none, s1) =>
      (.error { code := 40001, message := "failed to retrieve bot config",
                onTag := "app_id:" ++ cl.app_id ++ " bot_id:" ++ cl.bot_id
                  ++ " version:" ++ version }, s1)
  | (some bot_config, s1) =>
      if !cl.allow_cross_app_access && bot_config.app_id != cl.app_id then
        (.error { code := 40001, message := "failed to retrieve bot config",
                  onTag := "app_id:" ++ cl.app_id ++ " bot_id:" ++ cl.bot_id }, s1)
      else
        (.ok bot_config, s1)

/-- `session.query(...).first()` followed by in-place mutation: rewrite the
first row satisfying `p`, leave the table unchanged when none does. -/
def updateFirstWhere (p : TbBotConfig → Bool) (f : TbBotConfig → TbBotConfig) :
    List TbBotConfig → List TbBotConfig
  | [] => []
  | r :: rs => if p r then f r :: rs else r :: updateFirstWhere p f rs

/-- The non-cross main-version row filter used by `update` and `delete`. -/
def mainRowFilter (cl : BotConfigClient) (r : TbBotConfig) : Bool :=
  r.app_id == cl.app_id && r.bot_id == cl.bot_id && r.version == "-1"
    && !r.is_deleted

/-- `update`: pre-check via cache-or-MySQL read, ownership check, in-place
row update, then the cache-refresh tail: when the key exists, a TTL of
`-1` leads to `set_to_redis(value, ex=None)` and a positive TTL to
`set_to_redis(value)` — both of which resolve `ex=None` to the configured
expiry. -/
def update (cl : BotConfigClient) (cfgExpire : Int) (bot_config : BotConfig)
    (s : StoreState) : Except AgentExc BotConfig × StoreState :=
  let pulled : Option BotConfig × StoreState :=
    match pull_from_redis cfgExpire s with
    | (some v, s') => (some v, s')
    | (none, s') => pull_from_mysql cl cfgExpire "-1" s'
  match pulled with
  | (none, s1) =>
      (.error { code := 40001, message := "Main version not found, cannot update",
                onTag := "app_id:" ++ cl.app_id ++ " bot_id:" ++ cl.bot_id }, s1)
  | (some value, s1) =>
      if value.app_id != cl.app_id then
        (.error { code := 40001, message := "failed to retrieve bot config",
                  onTag := "app_id:" ++ cl.app_id ++ " bot_id:" ++ cl.bot_id }, s1)
      else
        let s2 : StoreState := { s1 with
          mysqlQueries := s1.mysqlQueries + 1,
          table := updateFirstWhere (mainRowFilter cl)
            (fun r => { r with payload := bot_config.payload }) s1.table }
        match pull_from_redis cfgExpire s2 with
        | (none, s3) => (.ok bot_config, s3)
        | (some _, s3) =>
            match get_ttl s3 with
            | some t =>
                if t == -1 then
                  (.ok bot_config, set_to_redis cfgExpire bot_config none s3)
                else if 0 < t then
                  (.ok bot_config, set_to_redis cfgExpire bot_config none s3)
                else (.ok bot_config, s3)
            | none => (.ok bot_config, s3)

/-- The tail of `delete` after its gates: cascade-delete every non-deleted
row of the owner's bot, then drop the Redis key if present. -/
def deleteCascade (cl : BotConfigClient) (cfgExpire : Int) (s : StoreState) :
    Except AgentExc Unit × StoreState :=
  let s3 : StoreState := { s with
    mysqlQueries := s.mysqlQueries + 1,
    table := s.table.filter (fun r =>
      !(r.app_id == cl.app_id && r.bot_id == cl.bot_id && !r.is_deleted)) }
  match pull_from_redis cfgExpire s3 with
  | (none, s4) => (.ok (), s4)
  | (some _, s4) => (.ok (), { s4 with cache := none })

/-- `delete`: pre-check read and ownership check as in `update`; then the
publish gate `record and record.publish_status and record.publish_status > 0`
raises 40063; otherwise all the bot's rows are removed and the cache key
deleted. -/
def «delete» (cl : BotConfigClient) (cfgExpire : Int) (s : StoreState) :
    Except AgentExc Unit × StoreState :=
  let pulled : Option BotConfig × StoreState :=
    match pull_from_redis cfgExpire s with
    | (some v, s') => (some v, s')
    | (none, s') => pull_from_mysql cl cfgExpire "-1" s'
  match pulled with
  | (none, s1) =>
      (.error { code := 40001, message := "Main version not found, cannot delete",
                onTag := "app_id:" ++ cl.app_id ++ " bot_id:" ++ cl.bot_id }, s1)
  | (some value, s1) =>
      if value.app_id != cl.app_id then
        (.error { code := 40001, message := "failed to retrieve bot config",
                  onTag := "app_id:" ++ cl.app_id ++ " bot_id:" ++ cl.bot_id }, s1)
      else
        let s2 : StoreState := { s1 with mysqlQueries := s1.mysqlQueries + 1 }
        match s2.table.find? (mainRowFilter cl) with
        | some record =>
            match record.publish_status with
            | some p =>
                if 0 < p then
                  (.error { code := 40063,
                            message := "Cannot delete published bot. Please unpublish first.",
                            onTag := "app_id:" ++ cl.app_id ++ " bot_id:" ++ cl.bot_id
                              ++ " publish_status:" ++ toString p }, s2)
                else deleteCascade cl cfgExpire s2
            | none => deleteCascade cl cfgExpire s2
        | none => deleteCascade cl cfgExpire s2

/-! ## service/publish_service.py — PublishService -/

structure PublishService where
  app_id : String
  bot_id : String
deriving DecidableEq, Repr

/-- The row filter of publish/unpublish queries: `(app_id, bot_id,
is_deleted=False)` — note: no version filter, `.first()` takes whatever
row comes first. -/
def publishMatch (svc : PublishService) (r : TbBotConfig) : Bool :=
  r.app_id == svc.app_id && r.bot_id == svc.bot_id && !r.is_deleted

/-- The snapshot row filter of `_handle_version`. -/
def versionRowFilter (bot_config : TbBotConfig) (version : String)
    (r : TbBotConfig) : Bool :=
  r.app_id == bot_config.app_id && r.bot_id == bot_config.bot_id
    && r.version == version && !r.is_deleted

/-- `_handle_version`: create the version snapshot (a fresh row copying the
mutable fields and the current publish status/data) when the
`(app_id, bot_id, version)` triple has no non-deleted row yet, otherwise
overwrite that row's fields in place. -/
def handle_version (bot_config : TbBotConfig) (version : String)
    (table : List TbBotConfig) : List TbBotConfig :=
  match table.find? (versionRowFilter bot_config version) with
  | none => table ++ [{ bot_config with version := version }]
  | some _ =>
      updateFirstWhere (versionRowFilter bot_config version)
        (fun r => { r with
          payload := bot_config.payload,
          publish_status := bot_config.publish_status,
          publish_data := bot_config.publish_data }) table

/-- `PublishService.publish`: set the platform bit, store the publish data
(the given payload, or a serialized copy of the current configuration),
optionally create/refresh the version snapshot and re-pin the main row's
version to `"-1"`, then clear the bot's cache entry. -/
def PublishService.publish (svc : PublishService) (platform : Platform)
    (publish_data : Option String) (version : Option String) (s : StoreState) :
    Except AgentExc Unit × StoreState :=
  let s0 : StoreState := { s with mysqlQueries := s.mysqlQueries + 1 }
  match s0.table.find? (publishMatch svc) with
  | none =>
      (.error { code := 40001, message := "Failed to get bot configuration",
                onTag := "app_id:" ++ svc.app_id ++ " bot_id:" ++ svc.bot_id }, s0)
  | some bot_config =>
      let old_status := bot_config.publish_status.getD 0
      let new_status := add_platform old_status platform
      let pd : Option String :=
        match publish_data with
        | some d => some d
        | none => some bot_config.payload
      let updated : TbBotConfig :=
        { bot_config with publish_status := some new_status, publish_data := pd }
      let table1 := updateFirstWhere (publishMatch svc) (fun _ => updated) s0.table
      let table2 :=
        match version with
        | none => table1
        | some v =>
            updateFirstWhere (publishMatch svc) (fun r => { r with version := "-1" })
              (handle_version updated v table1)
      (.ok (), { s0 with table := table2, cache := none })

/-- `PublishService.unpublish`: 40063 when the platform bit is not set;
otherwise clear the bit, clear `publish_data` when no bits remain, and
clear the bot's cache entry. -/
def PublishService.unpublish (svc : PublishService) (platform : Platform)
    (s : StoreState) : Except AgentExc Unit × StoreState :=
  let s0 : StoreState := { s with mysqlQueries := s.mysqlQueries + 1 }
  match s0.table.find? (publishMatch svc) with
  | none =>
      (.error { code := 40001, message := "Failed to get bot configuration",
                onTag := "app_id:" ++ svc.app_id ++ " bot_id:" ++ svc.bot_id }, s0)
  | some bot_config =>
      let old_status := bot_config.publish_status.getD 0
      if !(is_published old_status platform) then
        (.error { code := 40063,
                  message := "Bot config not published to " ++ PLATFORM_NAMES platform,
                  onTag := "app_id:" ++ svc.app_id ++ " bot_id:" ++ svc.bot_id }, s0)
      else
        let new_status := remove_platform old_status platform
        let updated : TbBotConfig :=
          { bot_config with
            publish_status := some new_status,
            publish_data := if new_status == 0 then none else bot_config.publish_data }
        (.ok (), { s0 with
          table := updateFirstWhere (publishMatch svc) (fun _ => updated) s0.table,
          cache := none })

/-! ## repository/auth_client.py and service/auth_service.py -/

/-- One grant row of the remote authority's response. -/
structure AuthPermission where
  app_id : String
  type : String
  ability_id : String
  status : Nat
deriving DecidableEq, Repr

/-- The remote authority's parsed response body (`AuthResponse`). -/
structure AuthResponse where
  code : Int
  message : String
  data : List AuthPermission
deriving DecidableEq, Repr

/-- The observable behaviour of the remote authority for one request:
reachable with some HTTP status and body, unreachable, unparsable, or not
configured at all (`AUTH_API_URL` empty). -/
inductive RemoteOutcome where
  | notConfigured
  | connectionError (detail : String)
  | invalidResponse (detail : String)
  | response (status : Nat) (body : AuthResponse)
deriving DecidableEq, Repr

structure AuthClient where
  app_id : String
  type : String
  ability_id : Option String
deriving DecidableEq, Repr

/-- `AuthClient.verify_permission(bot_id)`: map each failure kind to its
own `AgentExc` code (50004 not configured, 50002 connection failure,
50003 unexpected/parse failure, 50001 non-200 status); on a 200 response,
a non-zero body code is a denial, and a grant exists iff some row matches
`(app_id, ability_id = bot_id, type)` with `status == 1`. -/
def verify_permission (cl : AuthClient) (bot_id : String)
    (remote : RemoteOutcome) : Except AgentExc Bool :=
  let tag := "app_id:" ++ cl.app_id ++ " bot_id:" ++ bot_id
  match remote with
  | .notConfigured =>
      .error { code := 50004, message := "Auth service not configured", onTag := tag }
  | .connectionError _ =>
      .error { code := 50002, message := "Failed to connect to auth service", onTag := tag }
  | .invalidResponse detail =>
      .error { code := 50003, message := "Auth verification failed: " ++ detail, onTag := tag }
  | .response status body =>
      if status != 200 then
        .error { code := 50001,
                 message := "Auth service returned error: " ++ body.message, onTag := tag }
      else if body.code != 0 then
        .ok false
      else if (body.data.find? (fun perm =>
          perm.app_id == cl.app_id && perm.ability_id == bot_id
            && perm.type == cl.type && perm.status == 1)).isSome then
        .ok true
      else
        .ok false

structure AuthService where
  app_id : String
  bot_id : String
deriving DecidableEq, Repr

/-- One entry of the decision cache `agent:auth:{app_id}:{bot_id}`:
the sentinel string and the TTL it was set with. -/
structure AuthCacheEntry where
  value : String
  ttl : Int
deriving DecidableEq, Repr

/-- Decision-cache state plus a counter of calls to the remote authority. -/
structure AuthState where
  cache : Option AuthCacheEntry
  remoteCalls : Nat
deriving DecidableEq, Repr

/-- The PermissionDenied error (40300) of `check_permission`. -/
def permissionDeniedExc (svc : AuthService) : AgentExc :=
  { code := 40300,
    message := "Permission denied: app does not have access to this bot",
    onTag := "app_id:" ++ svc.app_id ++ " bot_id:" ++ svc.bot_id }

/-- `AuthService.check_permission`: Tier 1 consults the decision cache
(`"NORMAL"` allows, `"DENIED"` raises 40300, anything else falls
through); on a miss the remote authority is consulted via
`verify_permission` and its boolean outcome written back with the
configured TTL before the result is surfaced; a failure of the remote
call is re-raised unchanged and writes nothing. -/
def check_permission (svc : AuthService) (cfgExpire : Int)
    (remote : RemoteOutcome) (s : AuthState) :
    Except AgentExc Bool × AuthState :=
  let tier2 : Except AgentExc Bool × AuthState :=
    let s1 : AuthState := { s with remoteCalls := s.remoteCalls + 1 }
    let client : AuthClient :=
      { app_id := svc.app_id, type := "agent", ability_id := some svc.bot_id }
    match verify_permission client svc.bot_id remote with
    | .error e => (.error e, s1)
    | .ok has_permission =>
        let cache_value := if has_permission then "NORMAL" else "DENIED"
        let s2 : AuthState :=
          { s1 with cache := some { value := cache_value, ttl := cfgExpire } }
        if !has_permission then (.error (permissionDeniedExc svc), s2)
        else (.ok true, s2)
  match s.cache with
  | some entry =>
      if entry.value == "NORMAL" then (.ok true, s)
      else if entry.value == "DENIED" then (.error (permissionDeniedExc svc), s)
      else tier2
  | none => tier2

/-! ## Helper lemmas -/

theorem ldiff_lor_cancel (s p : Nat) (h : s &&& p = 0) :
    Nat.ldiff (s ||| p) p = s := by
  refine Nat.eq_of_testBit_eq fun i => ?_
  have h1 : (s &&& p).testBit i = false := by simp [h]
  rw [Nat.testBit_land] at h1
  rw [Nat.testBit_ldiff, Nat.testBit_lor]
  cases hs : s.testBit i <;> cases hp : p.testBit i <;> simp_all

theorem land_lor_self (s p : Nat) : (s ||| p) &&& p = p := by
  refine Nat.eq_of_testBit_eq fun i => ?_
  rw [Nat.testBit_land, Nat.testBit_lor]
  cases p.testBit i <;> simp

theorem ldiff_land_self (s p : Nat) : Nat.ldiff s p &&& p = 0 := by
  refine Nat.eq_of_testBit_eq fun i => ?_
  rw [Nat.testBit_land, Nat.testBit_ldiff]
  cases p.testBit i <;> simp

theorem ldiff_land_of_disjoint (s p q : Nat) (hpq : p &&& q = 0) :
    Nat.ldiff s p &&& q = s &&& q := by
  refine Nat.eq_of_testBit_eq fun i => ?_
  have h1 : (p &&& q).testBit i = false := by simp [hpq]
  rw [Nat.testBit_land] at h1
  rw [Nat.testBit_land, Nat.testBit_ldiff, Nat.testBit_land]
  cases hp : p.testBit i <;> cases hq : q.testBit i <;> simp_all

theorem platform_toNat_pos (P : Platform) : 0 < P.toNat := by
  cases P <;> decide

theorem platform_toNat_disjoint {P Q : Platform} (h : P ≠ Q) :
    P.toNat &&& Q.toNat = 0 := by
  cases P <;> cases Q <;> first | exact absurd rfl h | decide

theorem find?_updateFirstWhere (p : TbBotConfig → Bool)
    (f : TbBotConfig → TbBotConfig) (l : List TbBotConfig) (r : TbBotConfig)
    (h : l.find? p = some r) (hf : p (f r) = true) :
    (updateFirstWhere p f l).find? p = some (f r) := by
  induction l with
  | nil => simp at h
  | cons a t ih =>
      by_cases ha : p a
      · rw [List.find?_cons_of_pos _ ha] at h
        cases h
        rw [updateFirstWhere, if_pos ha, List.find?_cons_of_pos _ hf]
      · rw [List.find?_cons_of_neg _ ha] at h
        rw [updateFirstWhere, if_neg ha, List.find?_cons_of_neg _ ha]
        exact ih h

theorem publishMatch_of_find? {svc : PublishService} {l : List TbBotConfig}
    {r : TbBotConfig} (h : l.find? (publishMatch svc) = some r) :
    publishMatch svc r = true :=
  List.find?_some h

theorem publish_eval (svc : PublishService) (P : Platform) (pd : Option String)
    (s : StoreState) (r : TbBotConfig)
    (h : s.table.find? (publishMatch svc) = some r) :
    svc.publish P pd none s =
      (.ok (), { cache := none,
                 table := updateFirstWhere (publishMatch svc)
                   (fun _ => { r with
                     publish_status := some (add_platform (r.publish_status.getD 0) P),
                     publish_data := some (pd.getD r.payload) }) s.table,
                 mysqlQueries := s.mysqlQueries + 1 }) := by
  cases pd <;> simp [PublishService.publish, h]

theorem unpublish_eval (svc : PublishService) (P : Platform)
    (s : StoreState) (r : TbBotConfig)
    (h : s.table.find? (publishMatch svc) = some r)
    (hp : is_published (r.publish_status.getD 0) P = true) :
    svc.unpublish P s =
      (.ok (), { cache := none,
                 table := updateFirstWhere (publishMatch svc)
                   (fun _ => { r with
                     publish_status := some (remove_platform (r.publish_status.getD 0) P),
                     publish_data :=
                       if remove_platform (r.publish_status.getD 0) P == 0 then none
                       else r.publish_data }) s.table,
                 mysqlQueries := s.mysqlQueries + 1 }) := by
  simp [PublishService.unpublish, h, hp]

theorem publishMatch_ignores_publish_fields (svc : PublishService)
    (r : TbBotConfig) (ps : Option Nat) (pdata : Option String) :
    publishMatch svc { r with publish_status := ps, publish_data := pdata }
      = publishMatch svc r := by
  simp [publishMatch]

/-- C8: Unpublish semantics: when the platform bit is not set, `unpublish`
fails with the not-published error 40063; when it is set, it succeeds, the
bot's row afterwards carries a status with bit P cleared and every other
platform bit as before, and the publish-data blob is cleared exactly when
the resulting bitmask is zero. -/
theorem claim_C8_unpublish_semantics (svc : PublishService) (P : Platform)
    (s : StoreState) (r : TbBotConfig)
    (h : s.table.find? (publishMatch svc) = some r) :
    (is_published (r.publish_status.getD 0) P = false →
      (svc.unpublish P s).1 = .error
        { code := 40063,
          message := "Bot config not published to " ++ PLATFORM_NAMES P,
          onTag := "app_id:" ++ svc.app_id ++ " bot_id:" ++ svc.bot_id }) ∧
    (is_published (r.publish_status.getD 0) P = true →
      (svc.unpublish P s).1 = .ok () ∧
      ∃ n, (svc.unpublish P s).2.table.find? (publishMatch svc) = some
          { r with publish_status := some n,
                   publish_data := if n == 0 then none else r.publish_data } ∧
        is_published n P = false ∧
        (∀ Q : Platform, Q ≠ P →
          is_published n Q = is_published (r.publish_status.getD 0) Q)) := by
  constructor
  · intro hnp
    simp [PublishService.unpublish, h, hnp]
  · intro hp
    rw [unpublish_eval svc P s r h hp]
    refine ⟨rfl, remove_platform (r.publish_status.getD 0) P, ?_, ?_, ?_⟩
    · exact find?_updateFirstWhere _ _ _ _ h
        (by rw [publishMatch_ignores_publish_fields]; exact publishMatch_of_find? h)
    · simp [is_published, remove_platform, ldiff_land_self]
    · intro Q hQ
      simp [is_published, remove_platform,
        ldiff_land_of_disjoint _ _ _ (platform_toNat_disjoint (Ne.symm hQ))]

/-- C8 witness: concrete instances of both branches — unpublishing
KAIFANG from status 16 (AIUI only) fails 40063, and unpublishing XINGCHEN
from status 17 succeeds with AIUI still published. -/
theorem claim_C8_unpublish_semantics_witness :
    ((PublishService.mk "A" "B").unpublish Platform.KAIFANG
        (StoreState.mk none [TbBotConfig.mk "A" "B" "-1" "cfg" (some 16) (some "pd") false] 0)).1
      = .error { code := 40063,
                 message := "Bot config not published to " ++ PLATFORM_NAMES Platform.KAIFANG,
                 onTag := "app_id:" ++ "A" ++ " bot_id:" ++ "B" } ∧
    ((PublishService.mk "A" "B").unpublish Platform.XINGCHEN
        (StoreState.mk none [TbBotConfig.mk "A" "B" "-1" "cfg" (some 17) (some "pd") false] 0)).1
      = .ok () :=
  ⟨(claim_C8_unpublish_semantics (PublishService.mk "A" "B") Platform.KAIFANG
      (StoreState.mk none [TbBotConfig.mk "A" "B" "-1" "cfg" (some 16) (some "pd") false] 0)
      (TbBotConfig.mk "A" "B" "-1" "cfg" (some 16) (some "pd") false)
      (by decide)).1 (by decide),
   ((claim_C8_unpublish_semantics (PublishService.mk "A" "B") Platform.XINGCHEN
      (StoreState.mk none [TbBotConfig.mk "A" "B" "-1" "cfg" (some 17) (some "pd") false] 0)
      (TbBotConfig.mk "A" "B" "-1" "cfg" (some 17) (some "pd") false)
      (by decide)).2 (by decide)).1⟩


theorem publishMatch_fields (svc : PublishService) (r' r : TbBotConfig)
    (h1 : r'.app_id = r.app_id) (h2 : r'.bot_id = r.bot_id)
    (h3 : r'.is_deleted = r.is_deleted) :
    publishMatch svc r' = publishMatch svc r := by
  simp [publishMatch, h1, h2, h3]

/-- C3 (amended): publish/unpublish round trip restores the effective
`publish_status` (NULL read as 0) provided bit P was not already set
before the publish; the original claim fails when the bit was set. -/
theorem claim_C3_roundtrip_amended (svc : PublishService) (P : Platform)
    (pd : Option String) (s : StoreState) (r : TbBotConfig)
    (h : s.table.find? (publishMatch svc) = some r)
    (hnp : is_published (r.publish_status.getD 0) P = false) :
    (svc.publish P pd none s).1 = .ok () ∧
    (svc.unpublish P (svc.publish P pd none s).2).1 = .ok () ∧
    ((svc.unpublish P (svc.publish P pd none s).2).2.table.find?
        (publishMatch svc)).map (fun r2 => r2.publish_status)
      = some (some (r.publish_status.getD 0)) := by
  have hland : r.publish_status.getD 0 &&& P.toNat = 0 := by
    have := of_decide_eq_false hnp
    omega
  have hpub := publish_eval svc P pd s r h
  have hup : ((svc.publish P pd none s).2).table.find? (publishMatch svc)
      = some { r with
          publish_status := some (add_platform (r.publish_status.getD 0) P),
          publish_data := some (pd.getD r.payload) } := by
    rw [hpub]
    exact find?_updateFirstWhere _ _ _ _ h
      ((publishMatch_fields svc _ r rfl rfl rfl).trans (publishMatch_of_find? h))
  have hispub : is_published (add_platform (r.publish_status.getD 0) P) P = true := by
    simp [is_published, add_platform, land_lor_self]
    exact platform_toNat_pos P
  have hunp := unpublish_eval svc P ((svc.publish P pd none s).2) _ hup hispub
  have hrm : remove_platform (add_platform (r.publish_status.getD 0) P) P
      = r.publish_status.getD 0 := by
    exact ldiff_lor_cancel _ _ hland
  refine ⟨by rw [hpub], by rw [hunp], ?_⟩
  rw [hunp]
  refine Eq.trans (congrArg (Option.map (fun r2 => r2.publish_status))
      (find?_updateFirstWhere _ _ _ _ hup ?_)) ?_
  · exact (publishMatch_fields svc _ r rfl rfl rfl).trans (publishMatch_of_find? h)
  · simp [hrm]

/-- C3 witness: status 16 (AIUI only), publish then unpublish XINGCHEN
restores the effective status 16. -/
theorem claim_C3_roundtrip_amended_witness :
    (((PublishService.mk "A" "B").unpublish Platform.XINGCHEN
        ((PublishService.mk "A" "B").publish Platform.XINGCHEN none none
          (StoreState.mk none
            [TbBotConfig.mk "A" "B" "-1" "cfg" (some 16) (some "pd") false] 0)).2).2.table.find?
        (publishMatch (PublishService.mk "A" "B"))).map (fun r2 => r2.publish_status)
      = some (some 16) :=
  ((claim_C3_roundtrip_amended (PublishService.mk "A" "B") Platform.XINGCHEN none
      (StoreState.mk none
        [TbBotConfig.mk "A" "B" "-1" "cfg" (some 16) (some "pd") false] 0)
      (TbBotConfig.mk "A" "B" "-1" "cfg" (some 16) (some "pd") false)
      (by decide) (by decide)).2).2

/-- C3 counterexample: with prior status 1 (XINGCHEN already published),
publish(XINGCHEN) then unpublish(XINGCHEN) leaves status 0, not the prior
value 1 — the round trip does not restore `publish_status`. -/
theorem claim_C3_counterexample :
    (((PublishService.mk "A" "B").unpublish Platform.XINGCHEN
        ((PublishService.mk "A" "B").publish Platform.XINGCHEN none none
          (StoreState.mk none
            [TbBotConfig.mk "A" "B" "-1" "cfg" (some 1) (some "pd") false] 0)).2).2.table.find?
        (publishMatch (PublishService.mk "A" "B"))).map (fun r2 => r2.publish_status)
      = some (some 0) ∧
    ¬ (((PublishService.mk "A" "B").unpublish Platform.XINGCHEN
        ((PublishService.mk "A" "B").publish Platform.XINGCHEN none none
          (StoreState.mk none
            [TbBotConfig.mk "A" "B" "-1" "cfg" (some 1) (some "pd") false] 0)).2).2.table.find?
        (publishMatch (PublishService.mk "A" "B"))).map (fun r2 => r2.publish_status)
      = some (some 1) := by
  have hrm : remove_platform 1 Platform.XINGCHEN = 0 := by
    simpa [remove_platform, Platform.toNat] using ldiff_lor_cancel 0 1 (by decide)
  have h1 : ((PublishService.mk "A" "B").publish Platform.XINGCHEN none none
      (StoreState.mk none
        [TbBotConfig.mk "A" "B" "-1" "cfg" (some 1) (some "pd") false] 0)).2
      = StoreState.mk none
          [TbBotConfig.mk "A" "B" "-1" "cfg" (some 1) (some "cfg") false] 1 := by
    decide
  have h2 := unpublish_eval (PublishService.mk "A" "B") Platform.XINGCHEN
      (StoreState.mk none
        [TbBotConfig.mk "A" "B" "-1" "cfg" (some 1) (some "cfg") false] 1)
      (TbBotConfig.mk "A" "B" "-1" "cfg" (some 1) (some "cfg") false)
      (by decide) (by decide)
  have hmain : (((PublishService.mk "A" "B").unpublish Platform.XINGCHEN
      ((PublishService.mk "A" "B").publish Platform.XINGCHEN none none
        (StoreState.mk none
          [TbBotConfig.mk "A" "B" "-1" "cfg" (some 1) (some "pd") false] 0)).2).2.table.find?
      (publishMatch (PublishService.mk "A" "B"))).map (fun r2 => r2.publish_status)
      = some (some 0) := by
    rw [h1, h2]
    simp [hrm, updateFirstWhere, publishMatch]
  exact ⟨hmain, by rw [hmain]; decide⟩

theorem mysqlFilter_main_eq (cl : BotConfigClient)
    (hcross : cl.allow_cross_app_access = false) :
    mysqlFilter cl "-1" = mainRowFilter cl := by
  funext x
  simp [mysqlFilter, mainRowFilter, hcross]

/-- C7: Delete gating: from a cold cache, an owner's delete fails with the
40063 "published" error whenever the main row's `publish_status` is
positive; once it is zero (or NULL) the delete succeeds, removes every
non-deleted row of the bot from the durable store and leaves no cache
entry. -/
theorem claim_C7_delete_gating (cl : BotConfigClient) (ex : Int)
    (s : StoreState) (r : TbBotConfig)
    (hcross : cl.allow_cross_app_access = false)
    (hmiss : s.cache = none)
    (hfound : s.table.find? (mainRowFilter cl) = some r) :
    (∀ p, r.publish_status = some p → 0 < p →
      («delete» cl ex s).1 = .error
        { code := 40063,
          message := "Cannot delete published bot. Please unpublish first.",
          onTag := "app_id:" ++ cl.app_id ++ " bot_id:" ++ cl.bot_id
            ++ " publish_status:" ++ toString p }) ∧
    (r.publish_status.getD 0 = 0 →
      («delete» cl ex s).1 = .ok () ∧
      («delete» cl ex s).2.cache = none ∧
      ∀ r' ∈ («delete» cl ex s).2.table,
        ¬(r'.app_id = cl.app_id ∧ r'.bot_id = cl.bot_id ∧ r'.is_deleted = false)) := by
  have hfe := mysqlFilter_main_eq cl hcross
  have happ : r.app_id = cl.app_id := by
    have hm := List.find?_some hfound
    simp [mainRowFilter] at hm
    exact hm.1.1.1
  have hpullr : pull_from_redis ex s = (none, s) := by
    simp [pull_from_redis, hmiss]
  have hpm : pull_from_mysql cl ex "-1" s
      = (some (build_bot_config r),
         set_to_redis ex (build_bot_config r) (some ex)
           { s with mysqlQueries := s.mysqlQueries + 1 }) := by
    simp [pull_from_mysql, hfe, hfound]
  constructor
  · intro p hp hppos
    simp [«delete», hpullr, hpm, build_bot_config, bne, happ, set_to_redis,
      hfound, hp, hppos, hmiss]
  · intro h0
    have hrun : «delete» cl ex s
        = (.ok (),
           { cache := none,
             table := s.table.filter (fun r' =>
               !(r'.app_id == cl.app_id && r'.bot_id == cl.bot_id && !r'.is_deleted)),
             mysqlQueries := s.mysqlQueries + 1 + 1 + 1 }) := by
      rcases hps : r.publish_status with _ | p
      · by_cases hex : 0 < ex <;>
          simp [«delete», hpullr, hpm, build_bot_config, bne, happ, set_to_redis,
            hfound, hps, deleteCascade, pull_from_redis, refresh_redis_ttl,
            get_ttl, hex, hmiss]
      · have hp0 : p = 0 := by rw [hps] at h0; simpa using h0
        subst hp0
        by_cases hex : 0 < ex <;>
          simp [«delete», hpullr, hpm, build_bot_config, bne, happ, set_to_redis,
            hfound, hps, deleteCascade, pull_from_redis, refresh_redis_ttl,
            get_ttl, hex, hmiss]
    refine ⟨by rw [hrun], by rw [hrun], ?_⟩
    intro r' hmem
    rw [hrun] at hmem
    simp only [List.mem_filter] at hmem
    rintro ⟨h1, h2, h3⟩
    simp [h1, h2, h3] at hmem

/-- C7 witness: deleting bot "B" with status 17 fails 40063; with status 0
(one main row and one snapshot) it succeeds. -/
theorem claim_C7_delete_gating_witness :
    ((«delete» (BotConfigClient.mk "A" "B" false) 3600
        (StoreState.mk none
          [TbBotConfig.mk "A" "B" "-1" "cfg" (some 17) (some "pd") false] 0)).1
      = .error
          { code := 40063,
            message := "Cannot delete published bot. Please unpublish first.",
            onTag := "app_id:" ++ "A" ++ " bot_id:" ++ "B"
              ++ " publish_status:" ++ toString (17 : Nat) }) ∧
    ((«delete» (BotConfigClient.mk "A" "B" false) 3600
        (StoreState.mk none
          [TbBotConfig.mk "A" "B" "-1" "cfg" (some 0) none false,
           TbBotConfig.mk "A" "B" "v1.0" "cfg" (some 0) none false] 0)).1
      = .ok ()) :=
  ⟨(claim_C7_delete_gating (BotConfigClient.mk "A" "B" false) 3600
      (StoreState.mk none
        [TbBotConfig.mk "A" "B" "-1" "cfg" (some 17) (some "pd") false] 0)
      (TbBotConfig.mk "A" "B" "-1" "cfg" (some 17) (some "pd") false)
      rfl rfl (by decide)).1 17 rfl (by decide),
   ((claim_C7_delete_gating (BotConfigClient.mk "A" "B" false) 3600
      (StoreState.mk none
        [TbBotConfig.mk "A" "B" "-1" "cfg" (some 0) none false,
         TbBotConfig.mk "A" "B" "v1.0" "cfg" (some 0) none false] 0)
      (TbBotConfig.mk "A" "B" "-1" "cfg" (some 0) none false)
      rfl rfl (by decide)).2 (by decide)).1⟩

theorem refresh_redis_ttl_queries (c e : Int) (v : BotConfig) (s : StoreState) :
    (refresh_redis_ttl c e v s).mysqlQueries = s.mysqlQueries := by
  cases hc : s.cache with
  | none => simp [refresh_redis_ttl, get_ttl, hc]
  | some e2 =>
      simp only [refresh_redis_ttl, get_ttl, set_to_redis, hc, Option.map_some]
      split <;> first | rfl | (split <;> rfl)

/-- C1: Cache-aside write-back: a main-version pull on a cold cache whose
MySQL query finds the row ends with the built configuration cached under
the configured expiry and exactly one durable-store access; the
immediately following pull returns the same outcome with zero further
durable-store accesses. -/
theorem claim_C1_cache_aside_write_back (cl : BotConfigClient) (ex : Int)
    (s : StoreState) (r : TbBotConfig)
    (hmiss : s.cache = none)
    (hfound : s.table.find? (mysqlFilter cl "-1") = some r) :
    (pull cl ex "-1" s).2.cache
        = some { value := build_bot_config r, ttl := ex } ∧
    (pull cl ex "-1" s).2.mysqlQueries = s.mysqlQueries + 1 ∧
    (pull cl ex "-1" (pull cl ex "-1" s).2).1 = (pull cl ex "-1" s).1 ∧
    (pull cl ex "-1" (pull cl ex "-1" s).2).2.mysqlQueries
        = (pull cl ex "-1" s).2.mysqlQueries := by
  have hpm : pull_from_mysql cl ex "-1" s
      = (some (build_bot_config r),
         set_to_redis ex (build_bot_config r) (some ex)
           { s with mysqlQueries := s.mysqlQueries + 1 }) := by
    simp [pull_from_mysql, hfound]
  have hbc : pull_from_redis ex
      (set_to_redis ex (build_bot_config r) (some ex)
        { s with mysqlQueries := s.mysqlQueries + 1 })
      = (some (build_bot_config r),
         set_to_redis ex (build_bot_config r) (some ex)
           { s with mysqlQueries := s.mysqlQueries + 1 }) := by
    by_cases hex : 0 < ex <;>
      simp [pull_from_redis, set_to_redis, refresh_redis_ttl, get_ttl, hex]
  by_cases hown :
      (!cl.allow_cross_app_access && (build_bot_config r).app_id != cl.app_id) = true <;>
    refine ⟨?_, ?_, ?_, ?_⟩ <;>
      simp [pull, pull_from_redis, hmiss, hpm, hown, hbc, set_to_redis,
        refresh_redis_ttl_queries]

/-- C1 witness: cold cache, one matching row; the pull caches the row and
costs one query, the next pull repeats the result at zero further queries. -/
theorem claim_C1_cache_aside_write_back_witness :
    (pull (BotConfigClient.mk "A" "B" false) 3600 "-1"
        (StoreState.mk none
          [TbBotConfig.mk "A" "B" "-1" "cfg" (some 0) none false] 0)).2.cache
      = some { value := build_bot_config
                 (TbBotConfig.mk "A" "B" "-1" "cfg" (some 0) none false),
               ttl := 3600 } ∧
    (pull (BotConfigClient.mk "A" "B" false) 3600 "-1"
        (StoreState.mk none
          [TbBotConfig.mk "A" "B" "-1" "cfg" (some 0) none false] 0)).2.mysqlQueries = 1 ∧
    (pull (BotConfigClient.mk "A" "B" false) 3600 "-1"
        (pull (BotConfigClient.mk "A" "B" false) 3600 "-1"
          (StoreState.mk none
            [TbBotConfig.mk "A" "B" "-1" "cfg" (some 0) none false] 0)).2).1
      = (pull (BotConfigClient.mk "A" "B" false) 3600 "-1"
          (StoreState.mk none
            [TbBotConfig.mk "A" "B" "-1" "cfg" (some 0) none false] 0)).1 ∧
    (pull (BotConfigClient.mk "A" "B" false) 3600 "-1"
        (pull (BotConfigClient.mk "A" "B" false) 3600 "-1"
          (StoreState.mk none
            [TbBotConfig.mk "A" "B" "-1" "cfg" (some 0) none false] 0)).2).2.mysqlQueries
      = (pull (BotConfigClient.mk "A" "B" false) 3600 "-1"
          (StoreState.mk none
            [TbBotConfig.mk "A" "B" "-1" "cfg" (some 0) none false] 0)).2.mysqlQueries :=
  claim_C1_cache_aside_write_back (BotConfigClient.mk "A" "B" false) 3600
    (StoreState.mk none [TbBotConfig.mk "A" "B" "-1" "cfg" (some 0) none false] 0)
    (TbBotConfig.mk "A" "B" "-1" "cfg" (some 0) none false) rfl (by decide)

/-- C2 (amended): on a successful main-version update with a positive
configured expiry, the cache afterwards holds the new configuration with
TTL equal to the configured expiry — whether the prior entry had no
expiry, had a positive TTL, or was absent (in the last case the pre-update
read populates the cache from MySQL).  A no-expiry entry does not stay
no-expiry, and an update can leave a cache entry where none existed. -/
theorem claim_C2_update_refresh_amended (cl : BotConfigClient) (ex : Int)
    (cfg : BotConfig) (s : StoreState)
    (hex : 0 < ex)
    (hshape : s.cache = none ∨ ∃ e, s.cache = some e ∧ (e.ttl = -1 ∨ 0 < e.ttl))
    (hok : ∃ v, (update cl ex cfg s).1 = .ok v) :
    (update cl ex cfg s).2.cache = some { value := cfg, ttl := ex } := by
  obtain ⟨v, hok⟩ := hok
  have hexm1 : ¬ ex = -1 := by omega
  rcases hshape with hnone | ⟨e, hsome, httl⟩
  · rcases hfind : s.table.find? (mysqlFilter cl "-1") with _ | r
    · rw [update] at hok ⊢
      simp [pull_from_redis, hnone, pull_from_mysql, hfind] at hok
    · by_cases hown : ((build_bot_config r).app_id != cl.app_id) = true
      · rw [update] at hok ⊢
        simp [pull_from_redis, hnone, pull_from_mysql, hfind, set_to_redis, hown] at hok
      · rw [update]
        simp [pull_from_redis, hnone, pull_from_mysql, hfind, set_to_redis,
          get_ttl, refresh_redis_ttl, hown, hex, hexm1]
  · rcases httl with h1 | h1
    · by_cases hown : (e.value.app_id != cl.app_id) = true
      · rw [update] at hok ⊢
        simp [pull_from_redis, hsome, refresh_redis_ttl, get_ttl, h1, hown] at hok
      · rw [update]
        simp [pull_from_redis, hsome, refresh_redis_ttl, get_ttl, set_to_redis,
          h1, hown, hex, hexm1]
    · by_cases hown : (e.value.app_id != cl.app_id) = true
      · rw [update] at hok ⊢
        simp [pull_from_redis, hsome, refresh_redis_ttl, get_ttl, set_to_redis,
          h1, hown] at hok
      · rw [update]
        simp [pull_from_redis, hsome, refresh_redis_ttl, get_ttl, set_to_redis,
          h1, hown, hex, hexm1]

/-- C2 counterexample: (i) a no-expiry cache entry (TTL -1) does not stay
no-expiry across a successful update — its TTL becomes the configured
expiry 3600; (ii) an update on an empty cache leaves a cache entry behind
(created by the pre-update MySQL read), so updates can create entries
where none previously existed. -/
theorem claim_C2_counterexample :
    ((update (BotConfigClient.mk "A" "B" false) 3600 (BotConfig.mk "A" "B" "new")
        (StoreState.mk (some (CacheEntry.mk (BotConfig.mk "A" "B" "old") (-1)))
          [TbBotConfig.mk "A" "B" "-1" "old" (some 0) none false] 0)).1
      = .ok (BotConfig.mk "A" "B" "new") ∧
     (update (BotConfigClient.mk "A" "B" false) 3600 (BotConfig.mk "A" "B" "new")
        (StoreState.mk (some (CacheEntry.mk (BotConfig.mk "A" "B" "old") (-1)))
          [TbBotConfig.mk "A" "B" "-1" "old" (some 0) none false] 0)).2.cache
      = some (CacheEntry.mk (BotConfig.mk "A" "B" "new") 3600)) ∧
    ((update (BotConfigClient.mk "A" "B" false) 3600 (BotConfig.mk "A" "B" "new")
        (StoreState.mk none
          [TbBotConfig.mk "A" "B" "-1" "old" (some 0) none false] 0)).1
      = .ok (BotConfig.mk "A" "B" "new") ∧
     (update (BotConfigClient.mk "A" "B" false) 3600 (BotConfig.mk "A" "B" "new")
        (StoreState.mk none
          [TbBotConfig.mk "A" "B" "-1" "old" (some 0) none false] 0)).2.cache
      = some (CacheEntry.mk (BotConfig.mk "A" "B" "new") 3600)) := by
  exact ⟨⟨rfl, rfl⟩, rfl, rfl⟩

/-- C2 witness: the amended statement at the no-expiry instance. -/
theorem claim_C2_update_refresh_amended_witness :
    (update (BotConfigClient.mk "A" "B" false) 3600 (BotConfig.mk "A" "B" "new")
        (StoreState.mk (some (CacheEntry.mk (BotConfig.mk "A" "B" "old") (-1)))
          [TbBotConfig.mk "A" "B" "-1" "old" (some 0) none false] 0)).2.cache
      = some { value := BotConfig.mk "A" "B" "new", ttl := 3600 } :=
  claim_C2_update_refresh_amended (BotConfigClient.mk "A" "B" false) 3600
    (BotConfig.mk "A" "B" "new")
    (StoreState.mk (some (CacheEntry.mk (BotConfig.mk "A" "B" "old") (-1)))
      [TbBotConfig.mk "A" "B" "-1" "old" (some 0) none false] 0)
    (by decide)
    (Or.inr ⟨CacheEntry.mk (BotConfig.mk "A" "B" "old") (-1), rfl, Or.inl rfl⟩)
    ⟨BotConfig.mk "A" "B" "new", rfl⟩

/-- C4: Ownership mismatch is indistinguishable from absence: without
cross-tenant access, a pull that retrieves a foreign tenant's record (via
the bot-keyed cache) and a pull that finds nothing at all fail with the
same error code 40001 and the same message. -/
theorem claim_C4_ownership_indistinguishable (cl : BotConfigClient) (ex : Int)
    (s1 s2 : StoreState) (e : CacheEntry)
    (hcross : cl.allow_cross_app_access = false)
    (hhit : s1.cache = some e)
    (hforeign : e.value.app_id ≠ cl.app_id)
    (hmiss : s2.cache = none)
    (hnorow : s2.table.find? (mysqlFilter cl "-1") = none) :
    ∃ e1 e2 : AgentExc,
      (pull cl ex "-1" s1).1 = .error e1 ∧
      (pull cl ex "-1" s2).1 = .error e2 ∧
      e1.code = 40001 ∧ e1.code = e2.code ∧ e1.message = e2.message := by
  refine ⟨{ code := 40001, message := "failed to retrieve bot config",
            onTag := "app_id:" ++ cl.app_id ++ " bot_id:" ++ cl.bot_id },
          { code := 40001, message := "failed to retrieve bot config",
            onTag := "app_id:" ++ cl.app_id ++ " bot_id:" ++ cl.bot_id
              ++ " version:" ++ "-1" },
          ?_, ?_, rfl, rfl, rfl⟩
  · simp [pull, pull_from_redis, hhit, hcross, hforeign]
  · simp [pull, pull_from_redis, hmiss, pull_from_mysql, hnorow]

/-- C4 witness: a cache entry owned by tenant OTHER pulled by tenant A,
versus an empty system. -/
theorem claim_C4_ownership_indistinguishable_witness :
    ∃ e1 e2 : AgentExc,
      (pull (BotConfigClient.mk "A" "B" false) 3600 "-1"
          (StoreState.mk
            (some (CacheEntry.mk (BotConfig.mk "OTHER" "B" "x") 100)) [] 0)).1
        = .error e1 ∧
      (pull (BotConfigClient.mk "A" "B" false) 3600 "-1"
          (StoreState.mk none [] 0)).1 = .error e2 ∧
      e1.code = 40001 ∧ e1.code = e2.code ∧ e1.message = e2.message :=
  claim_C4_ownership_indistinguishable (BotConfigClient.mk "A" "B" false) 3600
    (StoreState.mk (some (CacheEntry.mk (BotConfig.mk "OTHER" "B" "x") 100)) [] 0)
    (StoreState.mk none [] 0)
    (CacheEntry.mk (BotConfig.mk "OTHER" "B" "x") 100)
    rfl rfl (by decide) rfl (by decide)

/-- C5: Decision-cache sentinel tiering: a cached NORMAL sentinel answers
allow with no remote call and no state change; a cached DENIED sentinel
raises 40300 likewise; on a cache miss the remote authority is called
exactly once and a boolean outcome is written back with the configured
TTL, the result mirroring the boolean. -/
theorem claim_C5_decision_cache_tiering (svc : AuthService) (ex : Int)
    (remote : RemoteOutcome) (s : AuthState) :
    ((∃ t, s.cache = some (AuthCacheEntry.mk "NORMAL" t)) →
        check_permission svc ex remote s = (.ok true, s)) ∧
    ((∃ t, s.cache = some (AuthCacheEntry.mk "DENIED" t)) →
        check_permission svc ex remote s = (.error (permissionDeniedExc svc), s) ∧
        (permissionDeniedExc svc).code = 40300) ∧
    (s.cache = none →
      (check_permission svc ex remote s).2.remoteCalls = s.remoteCalls + 1 ∧
      ∀ b, verify_permission (AuthClient.mk svc.app_id "agent" (some svc.bot_id))
            svc.bot_id remote = .ok b →
        (check_permission svc ex remote s).2.cache
            = some (AuthCacheEntry.mk (if b then "NORMAL" else "DENIED") ex) ∧
        (check_permission svc ex remote s).1
            = (if b then .ok true else .error (permissionDeniedExc svc))) := by
  refine ⟨?_, ?_, ?_⟩
  · rintro ⟨t, hc⟩
    simp [check_permission, hc]
  · rintro ⟨t, hc⟩
    exact ⟨by simp [check_permission, hc], rfl⟩
  · intro hc
    constructor
    · cases hv : verify_permission
          (AuthClient.mk svc.app_id "agent" (some svc.bot_id)) svc.bot_id remote with
      | error e => simp [check_permission, hc, hv]
      | ok b => cases b <;> simp [check_permission, hc, hv]
    · intro b hb
      cases b <;> simp [check_permission, hc, hb]

/-- C5 witness: a NORMAL hit is served from cache untouched; on a miss, a
200/ALLOW response is written back as NORMAL with the configured TTL. -/
theorem claim_C5_decision_cache_tiering_witness :
    check_permission (AuthService.mk "A" "B") 600
        (.response 200 (AuthResponse.mk 0 "s" [AuthPermission.mk "A" "agent" "B" 1]))
        (AuthState.mk (some (AuthCacheEntry.mk "NORMAL" 5)) 0)
      = (.ok true, AuthState.mk (some (AuthCacheEntry.mk "NORMAL" 5)) 0) ∧
    (check_permission (AuthService.mk "A" "B") 600
        (.response 200 (AuthResponse.mk 0 "s" [AuthPermission.mk "A" "agent" "B" 1]))
        (AuthState.mk none 0)).2.cache
      = some (AuthCacheEntry.mk (if true then "NORMAL" else "DENIED") 600) :=
  ⟨(claim_C5_decision_cache_tiering (AuthService.mk "A" "B") 600
      (.response 200 (AuthResponse.mk 0 "s" [AuthPermission.mk "A" "agent" "B" 1]))
      (AuthState.mk (some (AuthCacheEntry.mk "NORMAL" 5)) 0)).1 ⟨5, rfl⟩,
   ((((claim_C5_decision_cache_tiering (AuthService.mk "A" "B") 600
      (.response 200 (AuthResponse.mk 0 "s" [AuthPermission.mk "A" "agent" "B" 1]))
      (AuthState.mk none 0)).2.2) rfl).2 true rfl).1⟩

/-- C6: Remote failures are not cached as denials: on a decision-cache
miss, each remote failure kind surfaces its own error code (50004 not
configured, 50002 connection failure, 50003 unparsable response, 50001
non-200 status) while the decision cache is left exactly as it was — in
particular no DENIED sentinel is written. -/
theorem claim_C6_remote_failure_not_cached (svc : AuthService) (ex : Int)
    (s : AuthState) (detail : String) (status : Nat) (body : AuthResponse)
    (hmiss : s.cache = none) :
    (check_permission svc ex .notConfigured s
        = (.error (AgentExc.mk 50004 "Auth service not configured"
            ("app_id:" ++ svc.app_id ++ " bot_id:" ++ svc.bot_id)),
           { s with remoteCalls := s.remoteCalls + 1 })) ∧
    (check_permission svc ex (.connectionError detail) s
        = (.error (AgentExc.mk 50002 "Failed to connect to auth service"
            ("app_id:" ++ svc.app_id ++ " bot_id:" ++ svc.bot_id)),
           { s with remoteCalls := s.remoteCalls + 1 })) ∧
    (check_permission svc ex (.invalidResponse detail) s
        = (.error (AgentExc.mk 50003 ("Auth verification failed: " ++ detail)
            ("app_id:" ++ svc.app_id ++ " bot_id:" ++ svc.bot_id)),
           { s with remoteCalls := s.remoteCalls + 1 })) ∧
    (status ≠ 200 →
      check_permission svc ex (.response status body) s
        = (.error (AgentExc.mk 50001 ("Auth service returned error: " ++ body.message)
            ("app_id:" ++ svc.app_id ++ " bot_id:" ++ svc.bot_id)),
           { s with remoteCalls := s.remoteCalls + 1 })) := by
  refine ⟨?_, ?_, ?_, fun hst => ?_⟩ <;>
    simp [check_permission, verify_permission, hmiss, *]

/-- C6 witness: concrete 500 response and connection failure on a cold
decision cache leave the cache empty. -/
theorem claim_C6_remote_failure_not_cached_witness :
    (check_permission (AuthService.mk "A" "B") 600
        (.response 500 (AuthResponse.mk 1 "boom" [])) (AuthState.mk none 0)
      = (.error (AgentExc.mk 50001 ("Auth service returned error: "
          ++ (AuthResponse.mk 1 "boom" []).message)
          ("app_id:" ++ "A" ++ " bot_id:" ++ "B")),
         { AuthState.mk none 0 with remoteCalls := 0 + 1 })) ∧
    (check_permission (AuthService.mk "A" "B") 600
        (.connectionError "refused") (AuthState.mk none 0)
      = (.error (AgentExc.mk 50002 "Failed to connect to auth service"
          ("app_id:" ++ "A" ++ " bot_id:" ++ "B")),
         { AuthState.mk none 0 with remoteCalls := 0 + 1 })) :=
  ⟨(claim_C6_remote_failure_not_cached (AuthService.mk "A" "B") 600
      (AuthState.mk none 0) "refused" 500 (AuthResponse.mk 1 "boom" []) rfl).2.2.2
      (by decide),
   (claim_C6_remote_failure_not_cached (AuthService.mk "A" "B") 600
      (AuthState.mk none 0) "refused" 500 (AuthResponse.mk 1 "boom" []) rfl).2.1⟩

theorem filter_ne_of_not_memKey (l : List (String × String)) (k : String)
    (h : k ∉ l.map Prod.fst) : l.filter (fun p => p.1 != k) = l := by
  induction l with
  | nil => rfl
  | cons a t ih =>
      rw [List.map_cons] at h
      simp only [List.mem_cons, not_or] at h
      rw [List.filter_cons, if_pos (bne_iff_ne.mpr (Ne.symm h.1)), ih h.2]

theorem filter_length_of_nodupKeys (l : List (String × String)) (k : String)
    (e : String × String)
    (hnd : (l.map Prod.fst).Nodup)
    (hfind : l.find? (fun p => p.1 == k) = some e) :
    (l.filter (fun p => p.1 != k)).length + 1 = l.length := by
  induction l with
  | nil => simp at hfind
  | cons a t ih =>
      rw [List.map_cons, List.nodup_cons] at hnd
      by_cases ha : (a.1 == k) = true
      · have hk : a.1 = k := by simpa using ha
        have hnm : k ∉ t.map Prod.fst := hk ▸ hnd.1
        rw [List.filter_cons, if_neg (by simp [bne, ha]),
          filter_ne_of_not_memKey t k hnm]
        simp
      · have hb : (a.1 == k) = false := by simpa using ha
        simp only [List.find?_cons, hb] at hfind
        have := ih hnd.2 hfind
        rw [List.filter_cons, if_pos (by simp [bne, ha])]
        simpa using this

theorem find?_filter_ne (l : List (String × String)) (k : String) :
    (l.filter (fun p => p.1 != k)).find? (fun p => p.1 == k) = none := by
  rw [List.find?_eq_none]
  intro x hx
  have hne := (List.mem_filter.mp hx).2
  simpa [bne] using hne

theorem map_fst_filter_ne (l : List (String × String)) (k : String) :
    (l.filter (fun p => p.1 != k)).map Prod.fst
      = (l.map Prod.fst).filter (fun x => x != k) := by
  induction l with
  | nil => rfl
  | cons a t ih =>
      rw [List.filter_cons, List.map_cons, List.filter_cons]
      cases h : (a.1 != k) <;> simp [h, ih]

theorem nodup_promoteKeys (l : List (String × String)) (k v : String)
    (hnd : (l.map Prod.fst).Nodup) :
    (((l.filter (fun p => p.1 != k)) ++ [(k, v)]).map Prod.fst).Nodup := by
  rw [List.map_append, map_fst_filter_ne]
  refine List.Nodup.append ((hnd.filter _)) (List.nodup_singleton _) ?_
  intro x hx hy
  have h1 := (List.mem_filter.mp hx).2
  simp only [List.map_cons, List.map_nil, List.mem_singleton] at hy
  rw [hy] at h1
  simp [bne] at h1

theorem lru_set_fresh_full (c : LRUCache) (k v : String)
    (hsz : c.cache.length = c.maxSize) (hN : 1 ≤ c.maxSize)
    (hf : lruFind c.cache k = none) :
    (c.set k v).cache = c.cache.tail ++ [(k, v)] ∧
    (c.set k v).cache.length = c.maxSize := by
  have hns : ¬ (lruFind c.cache k).isSome = true := by simp [hf]
  rcases hc : c.cache with _ | ⟨a, t⟩
  · rw [hc] at hsz
    simp at hsz
    omega
  · have hlen : c.maxSize < (c.cache ++ [(k, v)]).length := by
      simp [hsz.symm]
    rw [LRUCache.set, if_neg hns, if_pos (by simpa using hlen)]
    rw [hc]
    constructor
    · simp
    · have : t.length + 1 = c.maxSize := by
        rw [← hsz, hc]
        simp
      simp [this]

theorem lru_set_existing_length (c : LRUCache) (k v : String)
    (hnd : (c.cache.map Prod.fst).Nodup)
    (hf : (lruFind c.cache k).isSome = true) :
    (c.set k v).cache.length = c.cache.length := by
  rcases hfe : c.cache.find? (fun p => p.1 == k) with _ | e
  · rw [lruFind, hfe] at hf
    simp at hf
  · rw [LRUCache.set, if_pos (by rw [lruFind, hfe]; simp)]
    have := filter_length_of_nodupKeys c.cache k e hnd hfe
    simpa using this

theorem lru_inv_apply (c : LRUCache) (op : LRUOp)
    (hnd : (c.cache.map Prod.fst).Nodup) (hsz : c.cache.length ≤ c.maxSize) :
    ((c.apply op).cache.map Prod.fst).Nodup ∧
    (c.apply op).cache.length ≤ (c.apply op).maxSize ∧
    (c.apply op).maxSize = c.maxSize := by
  cases op with
  | get k =>
      rcases hfe : c.cache.find? (fun p => p.1 == k) with _ | e
      · simp [LRUCache.apply, LRUCache.get, lruFind, hfe, hnd, hsz]
      · have hlen := filter_length_of_nodupKeys c.cache k e hnd hfe
        have hmv : (c.apply (.get k)).cache
            = c.cache.filter (fun p => p.1 != k) ++ [(k, e.2)] := by
          simp [LRUCache.apply, LRUCache.get, lruFind, lruMoveToEnd, hfe]
        have hms : (c.apply (.get k)).maxSize = c.maxSize := by
          simp [LRUCache.apply, LRUCache.get, lruFind, hfe]
        refine ⟨?_, ?_, hms⟩
        · rw [hmv]
          exact nodup_promoteKeys _ _ _ hnd
        · rw [hmv, hms]
          simp only [List.length_append, List.length_cons, List.length_nil]
          omega
  | set k v =>
      by_cases hf : (lruFind c.cache k).isSome = true
      · rcases hfe : c.cache.find? (fun p => p.1 == k) with _ | e
        · rw [lruFind, hfe] at hf
          simp at hf
        · have hlen := filter_length_of_nodupKeys c.cache k e hnd hfe
          have hmv : (c.apply (.set k v)).cache
              = c.cache.filter (fun p => p.1 != k) ++ [(k, v)] := by
            simp [LRUCache.apply, LRUCache.set, hf]
          have hms : (c.apply (.set k v)).maxSize = c.maxSize := by
            simp [LRUCache.apply, LRUCache.set, hf]
          refine ⟨?_, ?_, hms⟩
          · rw [hmv]
            exact nodup_promoteKeys _ _ _ hnd
          · rw [hmv, hms]
            simp only [List.length_append, List.length_cons, List.length_nil]
            omega
      · have hfr : k ∉ c.cache.map Prod.fst := by
          intro hk
          rcases List.mem_map.mp hk with ⟨p, hp, hpk⟩
          rcases hfe : c.cache.find? (fun q => q.1 == k) with _ | e
          · have := List.find?_eq_none.mp hfe p hp
            simp [hpk] at this
          · exact hf (by rw [lruFind, hfe]; simp)
        have hndl : ((c.cache ++ [(k, v)]).map Prod.fst).Nodup := by
          rw [List.map_append]
          refine List.Nodup.append hnd (by simp) ?_
          intro x hx hy
          simp at hy
          rw [hy] at hx
          exact hfr hx
        by_cases hcap : c.maxSize < c.cache.length + 1
        · have hcc : (c.apply (.set k v)).cache = (c.cache ++ [(k, v)]).tail := by
            simp [LRUCache.apply, LRUCache.set, hf, hcap]
          have hms : (c.apply (.set k v)).maxSize = c.maxSize := by
            simp [LRUCache.apply, LRUCache.set, hf, hcap]
          refine ⟨?_, ?_, hms⟩
          · rw [hcc]
            exact List.Nodup.sublist
              (List.Sublist.map Prod.fst (List.tail_sublist _)) hndl
          · rw [hcc, hms]
            simp only [List.length_tail, List.length_append, List.length_cons,
              List.length_nil]
            omega
        · have hcc : (c.apply (.set k v)).cache = c.cache ++ [(k, v)] := by
            simp [LRUCache.apply, LRUCache.set, hf, hcap]
          have hms : (c.apply (.set k v)).maxSize = c.maxSize := by
            simp [LRUCache.apply, LRUCache.set, hf, hcap]
          refine ⟨?_, ?_, hms⟩
          · rw [hcc]
            exact hndl
          · rw [hcc, hms]
            simp only [List.length_append, List.length_cons, List.length_nil]
            omega

theorem lru_inv_applyAll (ops : List LRUOp) : ∀ (c : LRUCache),
    (c.cache.map Prod.fst).Nodup → c.cache.length ≤ c.maxSize →
    ((c.applyAll ops).cache.map Prod.fst).Nodup ∧
    (c.applyAll ops).cache.length ≤ (c.applyAll ops).maxSize ∧
    (c.applyAll ops).maxSize = c.maxSize := by
  induction ops with
  | nil =>
      intro c h1 h2
      exact ⟨h1, h2, rfl⟩
  | cons op rest ih =>
      intro c h1 h2
      have h := lru_inv_apply c op h1 h2
      have h3 := ih (c.apply op) h.1 h.2.1
      exact ⟨h3.1, h3.2.1, h3.2.2.trans h.2.2⟩

/-- C10: LRU capacity invariant: from an empty cache of capacity N ≥ 1,
every reachable state holds at most N entries; inserting a fresh key at
capacity keeps the count at N and drops exactly the head (the least
recently used entry); a set on an existing key never changes the count. -/
theorem claim_C10_lru_capacity_invariant (N : Nat) (ops : List LRUOp)
    (hN : 1 ≤ N) :
    ((LRUCache.init N).applyAll ops).size ≤ N ∧
    (∀ k v, ((LRUCache.init N).applyAll ops).size = N →
      lruFind ((LRUCache.init N).applyAll ops).cache k = none →
      (((LRUCache.init N).applyAll ops).set k v).size = N ∧
      (((LRUCache.init N).applyAll ops).set k v).cache
        = ((LRUCache.init N).applyAll ops).cache.tail ++ [(k, v)]) ∧
    (∀ k v, (lruFind ((LRUCache.init N).applyAll ops).cache k).isSome = true →
      (((LRUCache.init N).applyAll ops).set k v).size
        = ((LRUCache.init N).applyAll ops).size) := by
  have hinv := lru_inv_applyAll ops (LRUCache.init N)
    (by simp [LRUCache.init]) (by simp [LRUCache.init])
  have hms : ((LRUCache.init N).applyAll ops).maxSize = N := hinv.2.2
  refine ⟨?_, ?_, ?_⟩
  · have h := hinv.2.1
    rw [hms] at h
    exact h
  · intro k v hfull hfresh
    have h := lru_set_fresh_full ((LRUCache.init N).applyAll ops) k v
      (by rw [hms]; exact hfull) (hms.symm ▸ hN) hfresh
    exact ⟨h.2.trans hms, h.1⟩
  · intro k v hsome
    exact lru_set_existing_length _ k v hinv.1 hsome

/-- C10 witness: capacity 2 after `set a; set b`: the bound holds, a fresh
`set c` keeps the count at 2 and evicts the head entry a, and a set on the
existing key b does not change the count. -/
theorem claim_C10_lru_capacity_invariant_witness :
    ((LRUCache.init 2).applyAll [.set "a" "1", .set "b" "2"]).size ≤ 2 ∧
    ((((LRUCache.init 2).applyAll [.set "a" "1", .set "b" "2"]).set "c" "3").size = 2 ∧
     (((LRUCache.init 2).applyAll [.set "a" "1", .set "b" "2"]).set "c" "3").cache
       = ((LRUCache.init 2).applyAll [.set "a" "1", .set "b" "2"]).cache.tail
         ++ [("c", "3")]) ∧
    ((((LRUCache.init 2).applyAll [.set "a" "1", .set "b" "2"]).set "b" "9").size
      = ((LRUCache.init 2).applyAll [.set "a" "1", .set "b" "2"]).size) :=
  ⟨(claim_C10_lru_capacity_invariant 2 [.set "a" "1", .set "b" "2"] (by decide)).1,
   (claim_C10_lru_capacity_invariant 2 [.set "a" "1", .set "b" "2"] (by decide)).2.1
     "c" "3" rfl rfl,
   (claim_C10_lru_capacity_invariant 2 [.set "a" "1", .set "b" "2"] (by decide)).2.2
     "b" "9" rfl⟩

/-- C9: LRU eviction and promotion: with capacity 2 the sequence
`set a;set b;set c` leaves a absent and b, c present; in general a get on
a present key makes it the most recently used entry; a fresh set at
capacity evicts the head (LRU) entry; and a get followed by a fresh set at
capacity (≥ 2) leaves the got key present — the LRU entry is evicted
instead of it. -/
theorem claim_C9_lru_eviction_promotion :
    ((((((LRUCache.init 2).set "a" "1").set "b" "2").set "c" "3").get "a").1 = none ∧
     (((((LRUCache.init 2).set "a" "1").set "b" "2").set "c" "3").get "b").1 = some "2" ∧
     (((((LRUCache.init 2).set "a" "1").set "b" "2").set "c" "3").get "c").1 = some "3") ∧
    (∀ (c : LRUCache) (k v : String), lruFind c.cache k = some v →
      ((c.get k).2).cache.getLast? = some (k, v)) ∧
    (∀ (c : LRUCache) (k v : String), c.size = c.maxSize → 1 ≤ c.maxSize →
      lruFind c.cache k = none →
      (c.set k v).cache = c.cache.tail ++ [(k, v)]) ∧
    (∀ (c : LRUCache) (k v k2 v2 : String),
      (c.cache.map Prod.fst).Nodup → c.size = c.maxSize → 2 ≤ c.maxSize →
      lruFind c.cache k = some v → lruFind c.cache k2 = none →
      lruFind (((c.get k).2).set k2 v2).cache k = some v) := by
  refine ⟨by decide, ?_, ?_, ?_⟩
  · intro c k v hf
    have hcc : (c.get k).2.cache = c.cache.filter (fun p => p.1 != k) ++ [(k, v)] := by
      simp [LRUCache.get, hf, lruMoveToEnd]
    rw [hcc]
    exact List.getLast?_concat _
  · intro c k v hfull hN hfresh
    exact (lru_set_fresh_full c k v hfull hN hfresh).1
  · intro c k v k2 v2 hnd hfull hN2 hk hk2
    rcases hfe : c.cache.find? (fun p => p.1 == k) with _ | e
    · rw [lruFind, hfe] at hk
      simp at hk
    · have hv : e.2 = v := by
        rw [lruFind, hfe] at hk
        simpa using hk
      have hc1 : (c.get k).2.cache
          = c.cache.filter (fun p => p.1 != k) ++ [(k, v)] := by
        simp [LRUCache.get, lruFind, hfe, lruMoveToEnd, hv]
      have hms1 : (c.get k).2.maxSize = c.maxSize := by
        simp [LRUCache.get, lruFind, hfe]
      have hlen := filter_length_of_nodupKeys c.cache k e hnd hfe
      have hc1len : (c.get k).2.cache.length = c.maxSize := by
        rw [hc1]
        simp only [List.length_append, List.length_cons, List.length_nil]
        have hc : c.cache.length = c.maxSize := hfull
        omega
      have hkk2 : k ≠ k2 := by
        intro he
        rw [lruFind, ← he, hfe] at hk2
        simp at hk2
      have hk2' : lruFind ((c.get k).2).cache k2 = none := by
        rw [hc1, lruFind, List.find?_append]
        have hA : (c.cache.filter (fun p => p.1 != k)).find?
            (fun p => p.1 == k2) = none := by
          rw [List.find?_eq_none]
          intro x hx
          have hxc := (List.mem_filter.mp hx).1
          rcases hf2 : c.cache.find? (fun p => p.1 == k2) with _ | e2
          · have := List.find?_eq_none.mp hf2 x hxc
            simpa using this
          · rw [lruFind, hf2] at hk2
            simp at hk2
        have hB : ([(k, v)].find? (fun p => p.1 == k2)) = none := by
          simp [List.find?_cons, hkk2]
        rw [hA, hB]
        rfl
      have hset := lru_set_fresh_full ((c.get k).2) k2 v2
        (by rw [hms1]; exact hc1len) (by rw [hms1]; omega) hk2'
      rw [hset.1]
      rcases hfl : c.cache.filter (fun p => p.1 != k) with _ | ⟨a, t⟩
      · rw [hfl] at hlen
        have hc : c.cache.length = c.maxSize := hfull
        simp at hlen
        omega
      · rw [hc1, hfl]
        simp only [List.cons_append, List.tail_cons]
        rw [lruFind, List.find?_append, List.find?_append]
        have ht : t.find? (fun p => p.1 == k) = none := by
          rw [List.find?_eq_none]
          intro x hx
          have hxm : x ∈ c.cache.filter (fun p => p.1 != k) := by
            rw [hfl]
            exact List.mem_cons_of_mem _ hx
          have := (List.mem_filter.mp hxm).2
          simpa [bne] using this
        rw [ht]
        simp

/-- C9 witness: on the full capacity-2 cache [x, y], a get of x followed
by a fresh set of z keeps x present (y, the LRU, is evicted instead), and
the get of x made it most recently used. -/
theorem claim_C9_lru_eviction_promotion_witness :
    lruFind (((LRUCache.mk [("x", "1"), ("y", "2")] 2).get "x").2.set "z" "9").cache "x"
      = some "1" ∧
    ((LRUCache.mk [("x", "1"), ("y", "2")] 2).get "x").2.cache.getLast?
      = some ("x", "1") :=
  ⟨claim_C9_lru_eviction_promotion.2.2.2 (LRUCache.mk [("x", "1"), ("y", "2")] 2)
      "x" "1" "z" "9" (by decide) rfl (by decide) (by decide) (by decide),
   claim_C9_lru_eviction_promotion.2.1 (LRUCache.mk [("x", "1"), ("y", "2")] 2)
      "x" "1" (by decide)⟩
